import Mathlib

/-!
Verification of `clickhouse-monitor` (src/main.go) against its specification.

Shallow embedding conventions:
* Go `time.Time` and `time.Duration` are nanosecond counts, modelled as `Int`
  (Go stores both as 64-bit nanosecond values; no overflow occurs in the
  quantities handled here).
* `time.Duration.Seconds()` returns the duration divided by 1e9; we model the
  real-number value as an exact rational.
* `time.Duration.Milliseconds()` is Go integer division by 1e6, which
  truncates toward zero: `Int.tdiv`.
* The fallible external library calls inside `generateChart`
  (`plotter.NewLinePoints`, `os.Create`, `png.WriteTo`) are modelled by
  boolean oracles in `Externals`; the observable side effects (panel draws,
  file creation, PNG bytes written) are recorded in `RenderResult`.
* The sampler goroutine / main-thread interaction (the `done` channel
  handshake) is modelled as a labelled transition system over `Config`.
-/

/-- One sampled data point, from `type Measurement` in src/main.go:
`timestamp time.Time`, `connections int`, `queryDuration time.Duration`. -/
structure Measurement where
  timestamp : Int
  connections : Int
  queryDuration : Int
deriving DecidableEq, Repr

/-- Go `time.Duration.Seconds()`: the duration (nanoseconds) divided by 1e9,
modelled exactly over ℚ. -/
def durationSeconds (d : Int) : ℚ := (d : ℚ) / 1000000000

/-- Go `time.Duration.Milliseconds()`: `int64(d) / 1e6`, Go integer division
truncating toward zero. -/
def durationMilliseconds (d : Int) : Int := Int.tdiv d 1000000

/-- A plot point, as in `plotter.XYs` entries with fields `X` and `Y`. -/
structure XY where
  x : ℚ
  y : ℚ
deriving DecidableEq, Repr

/-- The connections series built by `generateChart` (src/main.go:109-113):
`startTime := measurements[0].timestamp`; for each `i`,
`t := m.timestamp.Sub(startTime).Seconds()`; `connectionPts[i] = (t, float64(m.connections))`. -/
def connectionPts (measurements : List Measurement) : List XY :=
  match measurements with
  | [] => []
  | m0 :: _ =>
      measurements.map fun m =>
        { x := durationSeconds (m.timestamp - m0.timestamp)
          y := (m.connections : ℚ) }

/-- The latency series built by `generateChart` (src/main.go:109-116):
`durationPts[i] = (t, float64(m.queryDuration.Milliseconds()))`. -/
def durationPts (measurements : List Measurement) : List XY :=
  match measurements with
  | [] => []
  | m0 :: _ =>
      measurements.map fun m =>
        { x := durationSeconds (m.timestamp - m0.timestamp)
          y := ((durationMilliseconds m.queryDuration : Int) : ℚ) }

/-- The x-coordinates of the rendered series: the relative-time sequence the
Chart Renderer derives from the log. -/
def chartTimes (measurements : List Measurement) : List ℚ :=
  (connectionPts measurements).map XY.x

/-- Width of the raster canvas, from `vgimg.New(vg.Points(800*1.5), vg.Points(800*2))`
(src/main.go:152): first argument, in points. -/
def canvasWidth : ℚ := 800 * 1.5

/-- Height of the raster canvas, from `vgimg.New(vg.Points(800*1.5), vg.Points(800*2))`
(src/main.go:152): second argument, in points. -/
def canvasHeight : ℚ := 800 * 2

/-- Outcomes of the fallible external library calls made by `generateChart`:
`plotter.NewLinePoints(connectionPts)`, `plotter.NewLinePoints(durationPts)`,
`os.Create(filename)`, `png.WriteTo(w)`. `true` means the call succeeds. -/
structure Externals where
  line1Ok : Bool
  line2Ok : Bool
  createOk : Bool
  writeOk : Bool
deriving DecidableEq, Repr

/-- Observable outcome of a `generateChart` call: the returned error (if any),
how many panel `Draw` calls ran, whether the output file was created, whether
the PNG bytes were written, and the measurement slice as seen after the call. -/
structure RenderResult where
  err : Option String
  drawCalls : Nat
  fileCreated : Bool
  pngWritten : Bool
  log : List Measurement
deriving DecidableEq, Repr

/-- `generateChart` (src/main.go:99-194). Control flow in order:
empty-log guard returning `fmt.Errorf("no measurements to plot")`; series
construction; `plotter.NewLinePoints` for each series (early return on error,
before any drawing); canvas creation and the 2×1 tile draw loop (two `Draw`
calls); `os.Create` (early return `"error creating file"`); `png.WriteTo`
(early return `"error writing PNG"`); success. The function never mutates the
`measurements` slice, which is threaded into the result as `log`. -/
def generateChart (measurements : List Measurement) (ext : Externals) : RenderResult :=
  if measurements.length = 0 then
    { err := some "no measurements to plot", drawCalls := 0, fileCreated := false
      pngWritten := false, log := measurements }
  else if ext.line1Ok = false then
    { err := some "line points error", drawCalls := 0, fileCreated := false
      pngWritten := false, log := measurements }
  else if ext.line2Ok = false then
    { err := some "line points error", drawCalls := 0, fileCreated := false
      pngWritten := false, log := measurements }
  else if ext.createOk = false then
    { err := some "error creating file", drawCalls := 2, fileCreated := false
      pngWritten := false, log := measurements }
  else if ext.writeOk = false then
    { err := some "error writing PNG", drawCalls := 2, fileCreated := true
      pngWritten := false, log := measurements }
  else
    { err := none, drawCalls := 2, fileCreated := true
      pngWritten := true, log := measurements }

/-- The error message of the empty-log guard (src/main.go:101), the
spec's `EmptyLogError`. -/
def emptyLogError : String := "no measurements to plot"

/-- `collectMetrics` (src/main.go:78-97). `start` is `time.Now()` on entry
(the pre-query timestamp); `finish` is `time.Now()` at the `time.Since(start)`
call, so the measured elapsed wall time is `finish - start`; `queryResult` is
the outcome of `conn.QueryRow(...).Scan(&count)`: `some count` on success,
`none` on error. On the error branch the code returns
`Measurement{timestamp: start}`, whose remaining fields are Go zero values. -/
def collectMetrics (start finish : Int) (queryResult : Option Int) : Measurement :=
  match queryResult with
  | none => { timestamp := start, connections := 0, queryDuration := 0 }
  | some count =>
      { timestamp := start, connections := count, queryDuration := finish - start }

/-- The observable inputs of one iteration of the sampler loop's `default`
branch (src/main.go:58-62): the clock readings around the query and the query
outcome. -/
structure Tick where
  start : Int
  finish : Int
  queryResult : Option Int
deriving DecidableEq, Repr

/-- The sampler goroutine's loop body, iterated over a schedule of ticks
(src/main.go:54-63): each tick runs `collectMetrics` and appends the returned
Measurement to the log (`measurements = append(measurements, measurement)`). -/
def samplerRun (ticks : List Tick) (log : List Measurement) : List Measurement :=
  match ticks with
  | [] => log
  | t :: rest => samplerRun rest (log ++ [collectMetrics t.start t.finish t.queryResult])

theorem samplerRun_eq (ticks : List Tick) (log : List Measurement) :
    samplerRun ticks log =
      log ++ ticks.map (fun t => collectMetrics t.start t.finish t.queryResult) := by
  induction ticks generalizing log with
  | nil => simp [samplerRun]
  | cons t rest ih => simp [samplerRun, ih]

/-! ### The shutdown handshake as a labelled transition system

`main` (src/main.go:52-68) starts the sampler goroutine, blocks on `<-sigChan`,
and then performs `done <- true` on the unbuffered channel `done`. The
goroutine's loop header is a `select` that takes `<-done` (and returns) when a
sender is ready, and otherwise runs the `default` branch (collect, append,
sleep). A send on an unbuffered channel completes only together with the
matching receive, so the completion of `done <- true` is the
stop-acknowledgment handshake.
-/

/-- Program counter of the sampler goroutine: `running` = at the loop's
`select`; `stopped` = has taken `<-done` and returned. -/
inductive SamplerPC
  | running
  | stopped
deriving DecidableEq, Repr

/-- Program counter of the main thread: `waiting` = blocked on `<-sigChan`;
`sending` = signal received, blocked inside `done <- true`; `finished` = the
send has completed (the handshake is done). -/
inductive MainPC
  | waiting
  | sending
  | finished
deriving DecidableEq, Repr

/-- A global state of the two concurrent units plus the length of the
measurement log. -/
structure Config where
  samplerPC : SamplerPC
  mainPC : MainPC
  logLen : Nat
deriving DecidableEq, Repr

/-- Event labels: `append` = the goroutine's `default` branch appends a
Measurement; `signal` = `<-sigChan` returns in the main thread; `handshake` =
the rendezvous of `done <- true` with the `select`'s `<-done` case completes. -/
inductive Label
  | append
  | signal
  | handshake
deriving DecidableEq, Repr

/-- One interleaving step. `tick` requires that no sender is ready on `done`
(Go `select` takes `default` only when no other case is ready); `handshake`
requires the goroutine at its `select` and the main thread inside the send,
and atomically stops the goroutine and completes the send. -/
inductive Step : Config → Label → Config → Prop
  | tick (c : Config) (hs : c.samplerPC = SamplerPC.running)
      (hm : c.mainPC ≠ MainPC.sending) :
      Step c Label.append { c with logLen := c.logLen + 1 }
  | signal (c : Config) (hm : c.mainPC = MainPC.waiting) :
      Step c Label.signal { c with mainPC := MainPC.sending }
  | handshake (c : Config) (hs : c.samplerPC = SamplerPC.running)
      (hm : c.mainPC = MainPC.sending) :
      Step c Label.handshake
        { samplerPC := SamplerPC.stopped, mainPC := MainPC.finished, logLen := c.logLen }

/-- A finite execution: a sequence of labelled steps. -/
inductive Steps : Config → List Label → Config → Prop
  | nil (c : Config) : Steps c [] c
  | cons {c c' c'' : Config} {l : Label} {ls : List Label}
      (h : Step c l c') (hs : Steps c' ls c'') : Steps c (l :: ls) c''

/-- The initial state of src/main.go:47-67: empty log, goroutine running,
main thread blocked on the signal channel. -/
def initConfig : Config :=
  { samplerPC := SamplerPC.running, mainPC := MainPC.waiting, logLen := 0 }

theorem Step.stopped_stays {c c' : Config} {l : Label} (h : Step c l c')
    (hstop : c.samplerPC = SamplerPC.stopped) :
    c'.samplerPC = SamplerPC.stopped ∧ l ≠ Label.append := by
  cases h with
  | tick hs hm => rw [hstop] at hs; exact absurd hs (by simp)
  | signal hm => exact ⟨hstop, by simp⟩
  | handshake hs hm => rw [hstop] at hs; exact absurd hs (by simp)

theorem Steps.stopped_no_append {c c' : Config} {ls : List Label}
    (h : Steps c ls c') (hstop : c.samplerPC = SamplerPC.stopped) :
    Label.append ∉ ls := by
  induction h with
  | nil c => simp
  | cons hstep hrest ih =>
      obtain ⟨hstop', hne⟩ := hstep.stopped_stays hstop
      simp only [List.mem_cons, not_or]
      exact ⟨fun heq => hne heq.symm, ih hstop'⟩

theorem Step.handshake_stops {c c' : Config} (h : Step c Label.handshake c') :
    c'.samplerPC = SamplerPC.stopped := by
  cases h; rfl

/-- C2: In every interleaving of the sampler goroutine and the main thread,
once the stop-acknowledgment handshake completes (the send on `done` returns),
no further append to the Measurement Log occurs: every append label of the
execution precedes the handshake label. -/
theorem no_append_after_handshake (c c' : Config) (pre post : List Label)
    (h : Steps c (pre ++ Label.handshake :: post) c') :
    Label.append ∉ post := by
  induction pre generalizing c with
  | nil =>
      simp only [List.nil_append] at h
      cases h with
      | cons hstep hrest => exact hrest.stopped_no_append hstep.handshake_stops
  | cons l pre ih =>
      cases h with
      | cons hstep hrest => exact ih _ hrest

/-- Witness for C2: a concrete interleaving (append, signal, handshake) of
the transition system, with no append after the handshake. -/
theorem no_append_after_handshake_witness :
    (Steps initConfig [Label.append, Label.signal, Label.handshake]
        { samplerPC := SamplerPC.stopped, mainPC := MainPC.finished, logLen := 1 })
    ∧ Label.append ∉ ([] : List Label) := by
  have hexec : Steps initConfig [Label.append, Label.signal, Label.handshake]
      { samplerPC := SamplerPC.stopped, mainPC := MainPC.finished, logLen := 1 } := by
    refine Steps.cons (Step.tick initConfig rfl (by decide)) ?_
    refine Steps.cons (Step.signal _ rfl) ?_
    exact Steps.cons (Step.handshake _ rfl rfl) (Steps.nil _)
  exact ⟨hexec,
    no_append_after_handshake initConfig _ [Label.append, Label.signal] [] hexec⟩

/-- C1: For an empty Measurement Log, `generateChart` fails with the
empty-log ("no data") error, performs no drawing and no output-sink call:
no file is created and no PNG bytes are written. -/
theorem generateChart_empty_log (ext : Externals) :
    generateChart [] ext =
      { err := some emptyLogError, drawCalls := 0, fileCreated := false
        pngWritten := false, log := [] } := rfl

theorem durationSeconds_mono {a b : Int} (h : a ≤ b) :
    durationSeconds a ≤ durationSeconds b := by
  unfold durationSeconds
  have hq : (a : ℚ) ≤ (b : ℚ) := by exact_mod_cast h
  gcongr

/-- C3: For every non-empty Measurement Log with non-decreasing timestamps,
the relative-time sequence derived by the Chart Renderer is exactly
`timestamp_i − t0` in seconds (`t0` = first Measurement's timestamp), is
non-decreasing, and its first element is exactly `0`. -/
theorem chartTimes_spec (ms : List Measurement) (hne : ms ≠ [])
    (hmono : List.Chain' (fun a b => a.timestamp ≤ b.timestamp) ms) :
    chartTimes ms =
      ms.map (fun m => durationSeconds (m.timestamp - (ms.head hne).timestamp))
    ∧ List.Chain' (· ≤ ·) (chartTimes ms)
    ∧ (chartTimes ms).head? = some 0 := by
  match ms, hne with
  | m0 :: rest, _ =>
    have heq : chartTimes (m0 :: rest) =
        (m0 :: rest).map (fun m => durationSeconds (m.timestamp - m0.timestamp)) := by
      simp [chartTimes, connectionPts, List.map_map, Function.comp]
    refine ⟨by simpa [List.head] using heq, ?_, ?_⟩
    · rw [heq, List.chain'_map]
      exact hmono.imp fun a b hab => durationSeconds_mono (sub_le_sub_right hab _)
    · rw [heq]
      simp [durationSeconds]

/-- Witness for C3: a concrete two-entry log with non-decreasing timestamps. -/
theorem chartTimes_spec_witness :
    List.Chain' (· ≤ ·) (chartTimes
      [{ timestamp := 0, connections := 3, queryDuration := 10000000 },
       { timestamp := 300000000, connections := 5, queryDuration := 12000000 }])
    ∧ (chartTimes
      [{ timestamp := 0, connections := 3, queryDuration := 10000000 },
       { timestamp := 300000000, connections := 5, queryDuration := 12000000 }]).head?
        = some 0 :=
  (chartTimes_spec
    [{ timestamp := 0, connections := 3, queryDuration := 10000000 },
     { timestamp := 300000000, connections := 5, queryDuration := 12000000 }]
    (by decide) (by norm_num [List.chain'_cons])).2

/-- C4: For every non-empty Measurement Log of length `n`, series A
(connections) and series B (latency) each have exactly `n` points, and the
point at index `i` is derived from the Measurement at index `i` (the series
are the index-preserving images of the log). -/
theorem series_pointwise (ms : List Measurement) (hne : ms ≠ []) :
    (connectionPts ms).length = ms.length
    ∧ (durationPts ms).length = ms.length
    ∧ connectionPts ms = ms.map (fun m =>
        { x := durationSeconds (m.timestamp - (ms.head hne).timestamp)
          y := (m.connections : ℚ) })
    ∧ durationPts ms = ms.map (fun m =>
        { x := durationSeconds (m.timestamp - (ms.head hne).timestamp)
          y := ((durationMilliseconds m.queryDuration : Int) : ℚ) }) := by
  match ms, hne with
  | m0 :: rest, _ => simp [connectionPts, durationPts, List.head]

/-- Witness for C4: a concrete one-entry log. -/
theorem series_pointwise_witness :
    (connectionPts [{ timestamp := 0, connections := 3, queryDuration := 10000000 }]).length = 1
    ∧ (durationPts [{ timestamp := 0, connections := 3, queryDuration := 10000000 }]).length = 1 :=
  ⟨(series_pointwise [{ timestamp := 0, connections := 3, queryDuration := 10000000 }]
      (by decide)).1,
   (series_pointwise [{ timestamp := 0, connections := 3, queryDuration := 10000000 }]
      (by decide)).2.1⟩

/-- C10: For every Measurement Log, series A and series B have identical
x-coordinate sequences (both panels are plotted against the same
relative-time values, so they are time-synchronized by construction). -/
theorem panels_share_x (ms : List Measurement) :
    (connectionPts ms).map XY.x = (durationPts ms).map XY.x := by
  cases ms <;> simp [connectionPts, durationPts, List.map_map, Function.comp]

/-- C5 counterexample: with pre-query time 0 and post-query time 5000000 ns
(5 ms of measured elapsed wall time), a failed query yields a Measurement
whose `queryDuration` is 0, not the measured elapsed time: the failure branch
of `collectMetrics` returns `Measurement{timestamp: start}` with zero-valued
remaining fields and never calls `time.Since`. -/
theorem collectMetrics_failure_not_elapsed :
    (collectMetrics 0 5000000 none).queryDuration ≠ 5000000 - 0 := by decide

/-- C5 (amended): for every tick, the constructed Measurement carries the
pre-query timestamp; on the success branch its `queryDuration` is the measured
elapsed wall time of the query, while on the query-failure branch its
`connections` and `queryDuration` are the zero values, not the elapsed time. -/
theorem collectMetrics_fields (start finish : Int) (q : Option Int) :
    (collectMetrics start finish q).timestamp = start
    ∧ (∀ c, q = some c →
        (collectMetrics start finish q).connections = c
        ∧ (collectMetrics start finish q).queryDuration = finish - start)
    ∧ (q = none →
        (collectMetrics start finish q).connections = 0
        ∧ (collectMetrics start finish q).queryDuration = 0) := by
  cases q <;> simp [collectMetrics]

/-- Witness for C5: concrete success and failure ticks. -/
theorem collectMetrics_fields_witness :
    (collectMetrics 2 9 (some 4)).timestamp = 2
    ∧ (collectMetrics 2 9 (some 4)).queryDuration = 9 - 2
    ∧ (collectMetrics 2 9 none).queryDuration = 0 :=
  ⟨(collectMetrics_fields 2 9 (some 4)).1,
   ((collectMetrics_fields 2 9 (some 4)).2.1 4 rfl).2,
   ((collectMetrics_fields 2 9 none).2.2 rfl).2⟩

/-- C6 counterexample: the canvas of src/main.go:152 is 1200×1600 points, so
its height is not twice its width (2 × 1200 = 2400 ≠ 1600). -/
theorem canvas_aspect_not_double : canvasHeight ≠ 2 * canvasWidth := by
  norm_num [canvasWidth, canvasHeight]

/-- C6 (amended): the raster canvas has the fixed size 1200×1600 points
(`vg.Points(800*1.5)` by `vg.Points(800*2)`) independent of the input log: a
tall rectangle whose height is 4/3 of its width, not twice the width. -/
theorem canvas_dimensions :
    canvasWidth = 1200 ∧ canvasHeight = 1600
    ∧ canvasHeight = (4 / 3) * canvasWidth ∧ canvasWidth < canvasHeight := by
  norm_num [canvasWidth, canvasHeight]

/-- C7: A failed sampling query does not terminate the sampler loop: every
tick — failed or not — appends exactly one Measurement, so `k` ticks always
yield exactly `k` log entries, entry `i` coming from tick `i`; a failed tick's
entry carries that tick's valid pre-query timestamp with zero count and zero
duration. -/
theorem samplerRun_resilient (ticks : List Tick) :
    (samplerRun ticks []).length = ticks.length
    ∧ samplerRun ticks [] =
        ticks.map (fun t => collectMetrics t.start t.finish t.queryResult)
    ∧ (∀ t ∈ ticks, t.queryResult = none →
        collectMetrics t.start t.finish t.queryResult =
          { timestamp := t.start, connections := 0, queryDuration := 0 }) := by
  refine ⟨?_, ?_, ?_⟩
  · rw [samplerRun_eq]; simp
  · rw [samplerRun_eq]; simp
  · intro t _ hq
    simp [collectMetrics, hq]

/-- Witness for C7: three ticks of which the middle one fails still produce
three log entries, the failed one degraded with its tick's timestamp. -/
theorem samplerRun_resilient_witness :
    (samplerRun ([{ start := 0, finish := 1, queryResult := some 3 },
                  { start := 300, finish := 301, queryResult := none },
                  { start := 600, finish := 601, queryResult := some 5 }] : List Tick)
        []).length = 3
    ∧ collectMetrics 300 301 none =
        { timestamp := 300, connections := 0, queryDuration := 0 } :=
  ⟨(samplerRun_resilient
      ([{ start := 0, finish := 1, queryResult := some 3 },
        { start := 300, finish := 301, queryResult := none },
        { start := 600, finish := 601, queryResult := some 5 }] : List Tick)).1,
   (samplerRun_resilient
      ([{ start := 0, finish := 1, queryResult := some 3 },
        { start := 300, finish := 301, queryResult := none },
        { start := 600, finish := 601, queryResult := some 5 }] : List Tick)).2.2
     { start := 300, finish := 301, queryResult := none } (by decide) rfl⟩

/-- The Measurement Log of spec §8 Scenario 1: timestamps 0,300,600,900,1200 ms,
connection counts 3,5,5,2,4, query latencies 10,12,9,15,11 ms (stored in
nanoseconds, as Go does). -/
def scenarioLog : List Measurement :=
  [{ timestamp := 0, connections := 3, queryDuration := 10000000 },
   { timestamp := 300000000, connections := 5, queryDuration := 12000000 },
   { timestamp := 600000000, connections := 5, queryDuration := 9000000 },
   { timestamp := 900000000, connections := 2, queryDuration := 15000000 },
   { timestamp := 1200000000, connections := 4, queryDuration := 11000000 }]

/-- C8 counterexample: for a Measurement whose query latency is 1.5 ms
(1500000 ns), the series-B y-value is 1, not 1.5: `Milliseconds()` truncates
toward zero, so the y-value is not the latency expressed exactly in
milliseconds. -/
theorem seriesB_truncates :
    (durationPts [{ timestamp := 0, connections := 1, queryDuration := 1500000 }]).map XY.y
      ≠ [(1500000 : ℚ) / 1000000] := by
  have h : durationMilliseconds 1500000 = 1 := by decide
  simp only [durationPts, List.map_cons, List.map_nil, h]
  norm_num

/-- C8 (amended): for every Measurement at index `i`, the y-value of series B
point `i` equals that Measurement's query latency in whole milliseconds,
truncated toward zero (`Milliseconds()`); for the Scenario-1 log both series
have 5 points, x-values 0, 0.3, 0.6, 0.9, 1.2 seconds, and series-B y-values
10, 12, 9, 15, 11. -/
theorem seriesB_ms_and_scenario :
    (∀ ms : List Measurement,
        (durationPts ms).map XY.y =
          ms.map (fun m => ((durationMilliseconds m.queryDuration : Int) : ℚ)))
    ∧ (connectionPts scenarioLog).length = 5
    ∧ (durationPts scenarioLog).length = 5
    ∧ (connectionPts scenarioLog).map XY.x = [0, 3 / 10, 3 / 5, 9 / 10, 6 / 5]
    ∧ (durationPts scenarioLog).map XY.x = [0, 3 / 10, 3 / 5, 9 / 10, 6 / 5]
    ∧ (durationPts scenarioLog).map XY.y = [10, 12, 9, 15, 11] := by
  have h10 : durationMilliseconds 10000000 = 10 := by decide
  have h12 : durationMilliseconds 12000000 = 12 := by decide
  have h9 : durationMilliseconds 9000000 = 9 := by decide
  have h15 : durationMilliseconds 15000000 = 15 := by decide
  have h11 : durationMilliseconds 11000000 = 11 := by decide
  refine ⟨?_, by simp [scenarioLog, connectionPts], by simp [scenarioLog, durationPts],
    ?_, ?_, ?_⟩
  · intro ms
    cases ms <;> simp [durationPts, List.map_map, Function.comp]
  · norm_num [scenarioLog, connectionPts, durationSeconds]
  · norm_num [scenarioLog, durationPts, durationSeconds]
  · norm_num [scenarioLog, durationPts, h10, h12, h9, h15, h11]

theorem generateChart_log (ms : List Measurement) (ext : Externals) :
    (generateChart ms ext).log = ms := by
  unfold generateChart
  repeat' split
  all_goals rfl

/-- C9: Render-phase errors leave the already-collected Measurement Log
unchanged: for every log and every error result of `generateChart` — series
construction failure, file creation failure, or PNG write failure — the log
after the call equals the log before the call. -/
theorem generateChart_error_preserves_log (ms : List Measurement) (ext : Externals)
    (e : String) (_h : (generateChart ms ext).err = some e) :
    (generateChart ms ext).log = ms :=
  generateChart_log ms ext

/-- Witness for C9: the empty-log error case preserves the (empty) log. -/
theorem generateChart_error_preserves_log_witness :
    (generateChart []
      { line1Ok := true, line2Ok := true, createOk := true, writeOk := true }).log = [] :=
  generateChart_error_preserves_log []
    { line1Ok := true, line2Ok := true, createOk := true, writeOk := true }
    emptyLogError rfl
